import Mathlib

/-!
Shallow embedding of `src/Httpgd.cpp` (the R graphics-device glue of the
httpgd package) and proofs about it.

External collaborators (font/glyph metric lookup, font-file resolution,
the R device registry, the filesystem and the random source) are modelled
as explicit parameters, following the spec's boundary: they are consumed
as black-box services.  Doubles are modelled as rationals; the properties
proved here concern only exact values (zeroes, copies, field lists), never
rounding.
-/

namespace Httpgd

/-- Graphics-context snapshot (`pGEcontext`): only the fields that the
embedded functions read (font family, font face, point size, character
expansion). -/
structure GContext where
  fontfamily : String
  fontface : Int
  ps : ℚ
  cex : ℚ
deriving DecidableEq

/-- Result of the external `glyph_metrics` service: a C error code and the
three out-parameters it writes. -/
structure GlyphMetricsResult where
  error : Int
  ascent : ℚ
  descent : ℚ
  width : ℚ
deriving DecidableEq

/-- Result of the external `string_width` service: a C error code and the
width out-parameter it writes. -/
structure StrWidthResult where
  error : Int
  width : ℚ
deriving DecidableEq

/-- The external font services used by the device callbacks
(`get_font_file`, `glyph_metrics`, `string_width` from the bundled font
library, and `fontname`, `is_bold`, `is_italic` from `svglite_utils.h`).
All are black boxes at this boundary; `glyph_metrics` takes the character
code, font file, face index, size and unit, `string_width` the string,
font file, face index, size and unit. -/
structure FontEnv where
  get_font_file : String → Int → String × Int
  glyph_metrics : Int → String → Int → ℚ → ℚ → GlyphMetricsResult
  string_width : String → String → Int → ℚ → ℚ → StrWidthResult
  fontname : String → Int → String
  is_bold : Int → Bool
  is_italic : Int → Bool

/-- The three out-parameters of the metric-info callback. -/
structure MetricInfo where
  ascent : ℚ
  descent : ℚ
  width : ℚ
deriving DecidableEq

/-- Embedding of `httpgd_metric_info`: negate a negative character code,
resolve the font file, query `glyph_metrics`; on a nonzero error code set
ascent, descent and width to 0; finally scale all three by `72 / 1e4`. -/
def httpgd_metric_info (env : FontEnv) (c : Int) (gc : GContext) : MetricInfo :=
  let c2 : Int := if c < 0 then -c else c
  let font := env.get_font_file gc.fontfamily gc.fontface
  let r := env.glyph_metrics c2 font.1 font.2 (gc.ps * gc.cex) 10000
  let a : ℚ := if r.error ≠ 0 then 0 else r.ascent
  let d : ℚ := if r.error ≠ 0 then 0 else r.descent
  let w : ℚ := if r.error ≠ 0 then 0 else r.width
  let mod : ℚ := 72 / 10000
  ⟨a * mod, d * mod, w * mod⟩

/-- Embedding of `httpgd_strwidth`: resolve the font file, query
`string_width`; on a nonzero error code the width becomes 0; return
`width * 72 / 1e4`. -/
def httpgd_strwidth (env : FontEnv) (str : String) (gc : GContext) : ℚ :=
  let font := env.get_font_file gc.fontfamily gc.fontface
  let r := env.string_width str font.1 font.2 (gc.ps * gc.cex) 10000
  let width : ℚ := if r.error ≠ 0 then 0 else r.width
  width * 72 / 10000

/-- The text-specific payload captured at construction of a `dc::Text`
command (struct `TextInfo` of `DrawData.h`): resolved font name, font
size, bold and italic flags, measured string width. -/
structure TextInfo where
  fontname : String
  fontsize : ℚ
  bold : Bool
  italic : Bool
  txtwidth : ℚ
deriving DecidableEq

/-- A captured `dc::Text` draw command: position, string, rotation,
horizontal adjustment, the graphics-context snapshot and the `TextInfo`
payload. -/
structure TextCmd where
  gc : GContext
  x : ℚ
  y : ℚ
  str : String
  rot : ℚ
  hadj : ℚ
  info : TextInfo
deriving DecidableEq

/-- Embedding of `httpgd_text`: constructs the `dc::Text` command that the
callback puts into the device, with `TextInfo` built from the resolved
font name, `cex * ps`, the bold/italic flags and `httpgd_strwidth`. -/
def httpgd_text (env : FontEnv) (x y : ℚ) (str : String) (rot hadj : ℚ)
    (gc : GContext) : TextCmd :=
  { gc := gc, x := x, y := y, str := str, rot := rot, hadj := hadj,
    info :=
      { fontname := env.fontname gc.fontfamily gc.fontface,
        fontsize := gc.cex * gc.ps,
        bold := env.is_bold gc.fontface,
        italic := env.is_italic gc.fontface,
        txtwidth := httpgd_strwidth env str gc } }

/-- A captured `dc::Path` draw command: the copied coordinate vectors, the
number of sub-polygons, the per-polygon vertex counts and the winding
rule, plus the graphics-context snapshot. -/
structure PathCmd where
  gc : GContext
  x : List ℚ
  y : List ℚ
  npoly : Nat
  nper : List Nat
  winding : Bool
deriving DecidableEq

/-- Embedding of `httpgd_path`: copy `npoly` entries from the `nper`
buffer, accumulate `npoints` as their running sum, then copy the first
`npoints` entries of the `x` and `y` buffers, in order.  The C buffers are
modelled as total functions from index to value. -/
def httpgd_path (x y : Nat → ℚ) (npoly : Nat) (nper : Nat → Nat)
    (winding : Bool) (gc : GContext) : PathCmd :=
  let vnper := (List.range npoly).map nper
  let npoints := vnper.foldl (· + ·) 0
  { gc := gc,
    x := (List.range npoints).map x,
    y := (List.range npoints).map y,
    npoly := npoly, nper := vnper, winding := winding }

/-- Embedding of `read_txt`: the filesystem is a map from path to file
contents and `get_wwwpath` (an external call into R's `system.file`) maps
a file name to its path under the package's `www` directory.  The body
opens `get_wwwpath("index.html")`, never the `filepath` argument. -/
def read_txt (get_wwwpath : String → String) (fs : String → String)
    (filepath : String) : String :=
  fs (get_wwwpath "index.html")

/-- Modelled from the spec: `HttpgdDev::random_token` (defined in
`HttpgdDev.cpp`, which is not among the examined sources) generates a
random opaque token of the requested length; the randomness source is
abstracted as a stream of characters. -/
def random_token (rng : Nat → Char) (len : Nat) : String :=
  String.mk ((List.range len).map rng)

/-- Embedding of `httpgd_random_token_`: reject a negative length with an
R error (`Rcpp::stop`, modelled as `Except.error`), otherwise delegate to
`random_token`. -/
def httpgd_random_token_ (rng : Nat → Char) (len : Int) :
    Except String String :=
  if len < 0 then Except.error "Length needs to be 0 or higher."
  else Except.ok (random_token rng len.toNat)

/-- Server configuration (`HttpgdServerConfig`), in the order of the
brace-initializer at the call site in `httpgd_`: host, port, static HTML
payload, CORS flag, token-auth flag, token, recording flag. -/
structure HttpgdServerConfig where
  host : String
  port : Int
  livehtml : String
  cors : Bool
  use_token : Bool
  token : String
  recording : Bool
deriving DecidableEq

/-- Device start parameters (`HttpgdDevStartParams`), in the order of the
brace-initializer at the call site in `httpgd_`: background color, width,
height, point size, user font aliases (kept opaque as an association
list). -/
structure HttpgdDevStartParams where
  bg : Int
  width : ℚ
  height : ℚ
  pointsize : ℚ
  aliases : List (String × String)
deriving DecidableEq

/-- State of one `HttpgdDev` as observed through the accessors that
`Httpgd.cpp` calls: the immutable server configuration, the bound server
port, and the History Store observations (page count, upid, and the
results of `store_remove`, `store_clear` and `store_svg`, abstracted as
black boxes since `HttpgdDev.cpp` is outside the examined sources). -/
structure HttpgdDev where
  conf : HttpgdServerConfig
  server_port : Int
  page_count : Int
  upid : Int
  store_remove : Int → Bool
  store_clear : Bool
  store_svg : Int → ℚ → ℚ → String

/-- The R `DevDesc`: only its `deviceSpecific` pointer matters here; a
null pointer or a pointer to something other than a live `HttpgdDev` is
`none`. -/
structure DevDesc where
  deviceSpecific : Option HttpgdDev

/-- The R `GEDevDesc`: its `dev` pointer may be null. -/
structure GEDevDesc where
  dev : Option DevDesc

/-- The R device registry (`GEgetDevice`), a map from 0-based slot to a
possibly-null `GEDevDesc`. -/
def DevRegistry : Type := Int → Option GEDevDesc

/-- The full pointer chain `GEgetDevice(devnum - 1) -> dev ->
deviceSpecific` followed by `validate_httpgddev` after its range check. -/
def deviceLookup (reg : DevRegistry) (devnum : Int) : Option HttpgdDev :=
  match reg (devnum - 1) with
  | none => none
  | some gdd =>
    match gdd.dev with
    | none => none
    | some dd => dd.deviceSpecific

/-- Embedding of `validate_httpgddev`: reject device numbers outside
`1..64`, then follow the pointer chain, turning each null pointer into an
R error (`Rcpp::stop`, modelled as `Except.error`). -/
def validate_httpgddev (reg : DevRegistry) (devnum : Int) :
    Except String HttpgdDev :=
  if devnum < 1 ∨ devnum > 64 then
    Except.error "invalid graphical device number"
  else
    match reg (devnum - 1) with
    | none => Except.error "invalid device"
    | some gdd =>
      match gdd.dev with
      | none => Except.error "invalid device"
      | some dd =>
        match dd.deviceSpecific with
        | none => Except.error "invalid device"
        | some dev => Except.ok dev

/-- An R value inside an `Rcpp::List` (only strings and ints occur in
`httpgd_state_`). -/
inductive RVal where
  | str : String → RVal
  | int : Int → RVal
deriving DecidableEq

/-- Embedding of `httpgd_state_`: validate the device number, then build
the named list `host, port, token, hsize, upid` from the server config,
the awaited server port, and the History Store. -/
def httpgd_state_ (reg : DevRegistry) (devnum : Int) :
    Except String (List (String × RVal)) :=
  match validate_httpgddev reg devnum with
  | Except.error e => Except.error e
  | Except.ok dev =>
    Except.ok [("host", RVal.str dev.conf.host),
               ("port", RVal.int dev.server_port),
               ("token", RVal.str dev.conf.token),
               ("hsize", RVal.int dev.page_count),
               ("upid", RVal.int dev.upid)]

/-- Embedding of `httpgd_svg_`: validate the device number, then render
the page via the store. -/
def httpgd_svg_ (reg : DevRegistry) (devnum page : Int) (width height : ℚ) :
    Except String String :=
  match validate_httpgddev reg devnum with
  | Except.error e => Except.error e
  | Except.ok dev => Except.ok (dev.store_svg page width height)

/-- Embedding of `httpgd_remove_`: validate the device number, then return
the boolean result of `store_remove`. -/
def httpgd_remove_ (reg : DevRegistry) (devnum page : Int) :
    Except String Bool :=
  match validate_httpgddev reg devnum with
  | Except.error e => Except.error e
  | Except.ok dev => Except.ok (dev.store_remove page)

/-- Embedding of `httpgd_clear_`: validate the device number, then return
the boolean result of `store_clear`. -/
def httpgd_clear_ (reg : DevRegistry) (devnum : Int) : Except String Bool :=
  match validate_httpgddev reg devnum with
  | Except.error e => Except.error e
  | Except.ok dev => Except.ok dev.store_clear

/-- Embedding of `makehttpgdDevice`.  The externally observable state is
the list of device configurations registered with R; the liveness probe
`check_server_started` and the success of the `calloc` in
`httpgd_driver_new` are parameters.  `Rcpp::stop` is `Except.error`, and
on an error the device list is returned unchanged (the stop fires before
`GEaddDevice2`). -/
def makehttpgdDevice (check_server_started : String → Int → Bool)
    (allocOk : Bool) (t_params : HttpgdDevStartParams)
    (t_config : HttpgdServerConfig) (devices : List HttpgdServerConfig) :
    Except String Unit × List HttpgdServerConfig :=
  if check_server_started t_config.host t_config.port then
    (Except.error "Failed to start httpgd. Server already running at this address!",
     devices)
  else if allocOk = false then
    (Except.error "Failed to start httpgd.", devices)
  else
    (Except.ok (), devices ++ [t_config])

/-- Embedding of the exported `httpgd_`: derive `use_token` from the token
length, resolve the background color through the external `R_GE_str2col`,
read the static payload, call `makehttpgdDevice`, and return `true` on
success (an `Rcpp::stop` inside propagates as the error). -/
def httpgd_ (check_server_started : String → Int → Bool) (allocOk : Bool)
    (str2col : String → Int) (get_wwwpath : String → String)
    (fs : String → String) (host : String) (port : Int) (bg : String)
    (width height pointsize : ℚ) (aliases : List (String × String))
    (recording cors : Bool) (token : String)
    (devices : List HttpgdServerConfig) :
    Except String Bool × List HttpgdServerConfig :=
  let use_token : Bool := token.length != 0
  let ibg : Int := str2col bg
  let livehtml : String := read_txt get_wwwpath fs (get_wwwpath "index.html")
  match makehttpgdDevice check_server_started allocOk
      ⟨ibg, width, height, pointsize, aliases⟩
      ⟨host, port, livehtml, cors, use_token, token, recording⟩ devices with
  | (Except.error e, ds) => (Except.error e, ds)
  | (Except.ok _, ds) => (Except.ok true, ds)

/-! ### Concrete instances used by witnesses -/

/-- A concrete font environment whose metric services always fail. -/
def envErr : FontEnv :=
  { get_font_file := fun _ _ => ("font.ttf", 0),
    glyph_metrics := fun _ _ _ _ _ => ⟨1, 5, 6, 7⟩,
    string_width := fun _ _ _ _ _ => ⟨1, 9⟩,
    fontname := fun fam _ => fam,
    is_bold := fun face => face == 2 || face == 4,
    is_italic := fun face => face == 3 || face == 4 }

/-- A concrete graphics context. -/
def gc0 : GContext := ⟨"sans", 1, 12, 1⟩

/-! ### Claims about the metric callbacks -/

/-- Claim C1: whenever the external glyph-metrics lookup reports a nonzero
error, `httpgd_metric_info` yields ascent, descent and width all 0, and
whenever the external string-width lookup reports a nonzero error,
`httpgd_strwidth` returns 0; neither operation propagates a failure. -/
theorem metric_failure_degrades_to_zero (env : FontEnv) (c : Int)
    (gc : GContext) (str : String)
    (h1 : (env.glyph_metrics (if c < 0 then -c else c)
        (env.get_font_file gc.fontfamily gc.fontface).1
        (env.get_font_file gc.fontfamily gc.fontface).2
        (gc.ps * gc.cex) 10000).error ≠ 0)
    (h2 : (env.string_width str
        (env.get_font_file gc.fontfamily gc.fontface).1
        (env.get_font_file gc.fontfamily gc.fontface).2
        (gc.ps * gc.cex) 10000).error ≠ 0) :
    httpgd_metric_info env c gc = ⟨0, 0, 0⟩ ∧
      httpgd_strwidth env str gc = 0 := by
  constructor
  · simp [httpgd_metric_info, h1]
  · simp [httpgd_strwidth, h2]

/-- Witness for C1: the always-failing environment produces zero metrics
at a concrete input. -/
theorem metric_failure_degrades_to_zero_witness :
    httpgd_metric_info envErr 65 gc0 = ⟨0, 0, 0⟩ ∧
      httpgd_strwidth envErr "abc" gc0 = 0 :=
  metric_failure_degrades_to_zero envErr 65 gc0 "abc" (by decide) (by decide)

/-- Helper: the code normalization at the top of `httpgd_metric_info`
computes the absolute value. -/
theorem code_norm_eq_abs (c : Int) : (if c < 0 then -c else c) = |c| := by
  rcases lt_or_ge c 0 with hc | hc
  · rw [if_pos hc, abs_of_neg hc]
  · rw [if_neg (not_lt.mpr hc), abs_of_nonneg hc]

/-- Helper: `httpgd_metric_info` depends on the character code only
through its absolute value. -/
theorem metric_info_abs (env : FontEnv) (c : Int) (gc : GContext) :
    httpgd_metric_info env c gc = httpgd_metric_info env |c| gc := by
  simp only [httpgd_metric_info, code_norm_eq_abs, abs_abs]

/-- Claim C8: the single-character metric callback yields identical
metrics for `c` and `-c`; it is a function of `|c|` only. -/
theorem metric_info_neg_invariant (env : FontEnv) (c : Int) (gc : GContext) :
    httpgd_metric_info env c gc = httpgd_metric_info env (-c) gc ∧
      httpgd_metric_info env c gc = httpgd_metric_info env |c| gc := by
  refine ⟨?_, metric_info_abs env c gc⟩
  rw [metric_info_abs env c gc, metric_info_abs env (-c) gc, abs_neg]

/-- Claim C2: every captured Text command records at construction the
resolved font name, the `cex * ps` font size, the bold and italic flags
and the `httpgd_strwidth` measurement; when the width measurement fails
its recorded width is 0 and the command is still constructed with the
given string (the draw is not aborted). -/
theorem text_records_metrics (env : FontEnv) (x y : ℚ) (str : String)
    (rot hadj : ℚ) (gc : GContext) :
    ((httpgd_text env x y str rot hadj gc).info =
      { fontname := env.fontname gc.fontfamily gc.fontface,
        fontsize := gc.cex * gc.ps,
        bold := env.is_bold gc.fontface,
        italic := env.is_italic gc.fontface,
        txtwidth := httpgd_strwidth env str gc }) ∧
    ((env.string_width str
        (env.get_font_file gc.fontfamily gc.fontface).1
        (env.get_font_file gc.fontfamily gc.fontface).2
        (gc.ps * gc.cex) 10000).error ≠ 0 →
      (httpgd_text env x y str rot hadj gc).info.txtwidth = 0 ∧
        (httpgd_text env x y str rot hadj gc).str = str) := by
  refine ⟨rfl, fun herr => ⟨?_, rfl⟩⟩
  simp [httpgd_text, httpgd_strwidth, herr]

/-- Witness for C2: with the always-failing environment the recorded
width is 0 and the command still carries its string. -/
theorem text_records_metrics_witness :
    (envErr.string_width "abc" "font.ttf" 0 (12 * 1) 10000).error ≠ 0 ∧
      ((httpgd_text envErr 1 2 "abc" 0 0 gc0).info.txtwidth = 0 ∧
        (httpgd_text envErr 1 2 "abc" 0 0 gc0).str = "abc") :=
  ⟨by decide, (text_records_metrics envErr 1 2 "abc" 0 0 gc0).2 (by decide)⟩

/-- Claim C9: `read_txt` returns the contents of the package's
`www/index.html` for every value of its `filepath` argument; two calls
with different filepaths return the same text. -/
theorem read_txt_ignores_filepath (get_wwwpath fs : String → String)
    (p q : String) :
    read_txt get_wwwpath fs p = fs (get_wwwpath "index.html") ∧
      read_txt get_wwwpath fs p = read_txt get_wwwpath fs q :=
  ⟨rfl, rfl⟩

/-- Claim C10: the captured Path command copies exactly
`sum (nper 0 .. nper (npoly-1))` x-coordinates and as many
y-coordinates from the input buffers, preserving their order. -/
theorem path_copies_all_points (x y : Nat → ℚ) (npoly : Nat)
    (nper : Nat → Nat) (winding : Bool) (gc : GContext) :
    ((httpgd_path x y npoly nper winding gc).x.length =
        ((List.range npoly).map nper).sum ∧
      (httpgd_path x y npoly nper winding gc).y.length =
        ((List.range npoly).map nper).sum) ∧
    (∀ i, i < ((List.range npoly).map nper).sum →
      (httpgd_path x y npoly nper winding gc).x.getD i 0 = x i ∧
        (httpgd_path x y npoly nper winding gc).y.getD i 0 = y i) := by
  have hfold : ((List.range npoly).map nper).foldl (· + ·) 0 =
      ((List.range npoly).map nper).sum := by
    rw [List.sum_eq_foldl]
  constructor
  · constructor <;> simp [httpgd_path, hfold]
  · intro i hi
    constructor <;>
      · simp only [httpgd_path, hfold]
        rw [List.getD_eq_getElem _ _ (by simpa using hi)]
        simp

/-- Witness for C10: a concrete path with two sub-polygons of 2 and 3
vertices copies 5 coordinates in order. -/
theorem path_copies_all_points_witness :
    (3 < ((List.range 2).map (fun i => 2 + i)).sum) ∧
      ((httpgd_path (fun i => (i : ℚ)) (fun i => (i : ℚ) + 10) 2
          (fun i => 2 + i) true gc0).x.getD 3 0 = (3 : ℚ) ∧
        (httpgd_path (fun i => (i : ℚ)) (fun i => (i : ℚ) + 10) 2
          (fun i => 2 + i) true gc0).y.getD 3 0 = (3 : ℚ) + 10) :=
  ⟨by decide,
    (path_copies_all_points (fun i => (i : ℚ)) (fun i => (i : ℚ) + 10) 2
      (fun i => 2 + i) true gc0).2 3 (by decide)⟩

/-- Claim C4: `httpgd_random_token_` fails exactly when the requested
length is negative, and for every nonnegative length returns a token of
that length. -/
theorem random_token_length_spec (rng : Nat → Char) (len : Int) :
    (len < 0 → httpgd_random_token_ rng len =
        Except.error "Length needs to be 0 or higher.") ∧
    (0 ≤ len → ∃ t, httpgd_random_token_ rng len = Except.ok t ∧
        (t.length : Int) = len) := by
  constructor
  · intro h
    simp [httpgd_random_token_, h]
  · intro h
    refine ⟨random_token rng len.toNat, ?_, ?_⟩
    · simp [httpgd_random_token_, not_lt.mpr h]
    · simp [random_token, Int.toNat_of_nonneg h]

/-- Witness for C4: length -1 fails, length 3 yields a 3-character
token. -/
theorem random_token_length_spec_witness :
    (httpgd_random_token_ (fun _ => 'x') (-1) =
        Except.error "Length needs to be 0 or higher.") ∧
      ∃ t, httpgd_random_token_ (fun _ => 'x') 3 = Except.ok t ∧
        (t.length : Int) = 3 :=
  ⟨(random_token_length_spec (fun _ => 'x') (-1)).1 (by decide),
    (random_token_length_spec (fun _ => 'x') 3).2 (by decide)⟩

/-! ### Concrete devices and registries used by witnesses -/

/-- A concrete server configuration. -/
def cfg0 : HttpgdServerConfig :=
  ⟨"127.0.0.1", 8080, "<html/>", false, true, "abc123", true⟩

/-- Concrete start parameters. -/
def params0 : HttpgdDevStartParams := ⟨0, 600, 400, 12, []⟩

/-- A concrete live device. -/
def dev0 : HttpgdDev :=
  { conf := cfg0, server_port := 8080, page_count := 2, upid := 5,
    store_remove := fun p => p == 1, store_clear := true,
    store_svg := fun _ _ _ => "<svg/>" }

/-- A concrete registry with `dev0` in slot 0 (device number 1). -/
def reg0 : DevRegistry := fun i =>
  if i = 0 then some ⟨some ⟨some dev0⟩⟩ else none

/-! ### Claims about the exported device operations -/

/-- Helper: `validate_httpgddev` expressed through `deviceLookup`. -/
theorem validate_httpgddev_eq (reg : DevRegistry) (devnum : Int) :
    validate_httpgddev reg devnum =
      if devnum < 1 ∨ devnum > 64 then
        Except.error "invalid graphical device number"
      else
        match deviceLookup reg devnum with
        | none => Except.error "invalid device"
        | some dev => Except.ok dev := by
  unfold validate_httpgddev deviceLookup
  by_cases hr : devnum < 1 ∨ devnum > 64
  · simp [hr]
  · simp only [if_neg hr]
    cases reg (devnum - 1) with
    | none => simp
    | some gdd =>
      obtain ⟨odev⟩ := gdd
      cases odev with
      | none => simp
      | some dd =>
        obtain ⟨ospec⟩ := dd
        cases ospec with
        | none => simp
        | some dev => simp

/-- Claim C5: for a device number out of range (`< 1` or `> 64`) or one
not referring to a live httpgd device, the state query, SVG render, page
removal and clear all report an error condition to the caller; for a
valid device, page removal reports the store's boolean result. -/
theorem invalid_device_reports_failure (reg : DevRegistry)
    (devnum page : Int) (w h : ℚ) :
    ((devnum < 1 ∨ 64 < devnum ∨ deviceLookup reg devnum = none) →
      ((∃ e, httpgd_state_ reg devnum = Except.error e) ∧
        (∃ e, httpgd_svg_ reg devnum page w h = Except.error e) ∧
        (∃ e, httpgd_remove_ reg devnum page = Except.error e) ∧
        (∃ e, httpgd_clear_ reg devnum = Except.error e))) ∧
    (∀ dev, validate_httpgddev reg devnum = Except.ok dev →
      httpgd_remove_ reg devnum page = Except.ok (dev.store_remove page)) := by
  constructor
  · intro h
    have he : ∃ e, validate_httpgddev reg devnum = Except.error e := by
      rw [validate_httpgddev_eq]
      by_cases hr : devnum < 1 ∨ devnum > 64
      · exact ⟨_, if_pos hr⟩
      · have hl : deviceLookup reg devnum = none := by
          rcases h with h | h | h
          · exact absurd (Or.inl h) hr
          · exact absurd (Or.inr h) hr
          · exact h
        rw [if_neg hr, hl]
        exact ⟨_, rfl⟩
    obtain ⟨e, he⟩ := he
    exact ⟨⟨e, by simp [httpgd_state_, he]⟩,
           ⟨e, by simp [httpgd_svg_, he]⟩,
           ⟨e, by simp [httpgd_remove_, he]⟩,
           ⟨e, by simp [httpgd_clear_, he]⟩⟩
  · intro dev hdev
    simp [httpgd_remove_, hdev]

/-- Witness for C5: device number 0 makes the state query fail on the
concrete registry, and on the live device 1 removal reports the store's
boolean result. -/
theorem invalid_device_reports_failure_witness :
    (∃ e, httpgd_state_ reg0 0 = Except.error e) ∧
      httpgd_remove_ reg0 1 1 = Except.ok true := by
  constructor
  · exact ((invalid_device_reports_failure reg0 0 1 0 0).1
      (Or.inl (by decide))).1
  · have h := (invalid_device_reports_failure reg0 1 1 0 0).2 dev0 (by rfl)
    simpa [dev0] using h

/-- Counterexample to C6 as stated: at a concrete live device the state
query's field names are `host, port, token, hsize, upid` — the fourth
field is `"hsize"`, not `"page_count"`. -/
theorem state_field_is_hsize_not_page_count :
    (httpgd_state_ reg0 1).map (fun l => l.map Prod.fst) =
        Except.ok ["host", "port", "token", "hsize", "upid"] ∧
      ["host", "port", "token", "hsize", "upid"] ≠
        ["host", "port", "token", "page_count", "upid"] := by
  exact ⟨rfl, by decide⟩

/-- Claim C6 (amended): for every valid device number the state query
returns exactly the named fields host, port, token, hsize and upid, where
host and token come from the server configuration, port from the server,
and hsize (the History Store's page count) and upid from the History
Store. -/
theorem state_returns_config_fields (reg : DevRegistry) (devnum : Int)
    (dev : HttpgdDev)
    (hdev : validate_httpgddev reg devnum = Except.ok dev) :
    httpgd_state_ reg devnum =
      Except.ok [("host", RVal.str dev.conf.host),
                 ("port", RVal.int dev.server_port),
                 ("token", RVal.str dev.conf.token),
                 ("hsize", RVal.int dev.page_count),
                 ("upid", RVal.int dev.upid)] := by
  simp [httpgd_state_, hdev]

/-- Witness for C6: the concrete device's state list. -/
theorem state_returns_config_fields_witness :
    validate_httpgddev reg0 1 = Except.ok dev0 ∧
      httpgd_state_ reg0 1 =
        Except.ok [("host", RVal.str "127.0.0.1"),
                   ("port", RVal.int 8080),
                   ("token", RVal.str "abc123"),
                   ("hsize", RVal.int 2),
                   ("upid", RVal.int 5)] := by
  refine ⟨by rfl, ?_⟩
  have h := state_returns_config_fields reg0 1 dev0 (by rfl)
  simpa [dev0, cfg0] using h

/-- Claim C3: if an instance is already running at the configured
host:port, the start attempt stops with the descriptive already-running
error and the device list is unchanged — no device is created. -/
theorem start_collision_fails (check : String → Int → Bool)
    (allocOk : Bool) (t_params : HttpgdDevStartParams)
    (t_config : HttpgdServerConfig) (devices : List HttpgdServerConfig)
    (h : check t_config.host t_config.port = true) :
    makehttpgdDevice check allocOk t_params t_config devices =
      (Except.error
        "Failed to start httpgd. Server already running at this address!",
       devices) := by
  simp [makehttpgdDevice, h]

/-- Witness for C3: a liveness probe that reports the address as taken
makes the start fail and leaves the one registered device alone. -/
theorem start_collision_fails_witness :
    (fun _ _ => true : String → Int → Bool) cfg0.host cfg0.port = true ∧
      makehttpgdDevice (fun _ _ => true) true params0 cfg0 [cfg0] =
        (Except.error
          "Failed to start httpgd. Server already running at this address!",
         [cfg0]) :=
  ⟨rfl, start_collision_fails (fun _ _ => true) true params0 cfg0 [cfg0] rfl⟩

/-- Helper: a string has nonzero length iff it is nonempty. -/
theorem string_length_ne_zero_iff (s : String) : s.length ≠ 0 ↔ s ≠ "" := by
  constructor
  · intro h he
    exact h (he ▸ rfl)
  · intro h hl
    apply h
    cases s with
    | mk data =>
      cases data with
      | nil => rfl
      | cons a l => simp [String.length] at hl

/-- Claim C7: whenever `httpgd_` succeeds it returns `true`, and the
server configuration it registered has token authentication enabled iff
the supplied token string is nonempty. -/
theorem start_token_auth_iff_nonempty (check : String → Int → Bool)
    (allocOk : Bool) (str2col : String → Int)
    (get_wwwpath fs : String → String) (host : String) (port : Int)
    (bg : String) (width height pointsize : ℚ)
    (aliases : List (String × String)) (recording cors : Bool)
    (token : String) (devices : List HttpgdServerConfig) (b : Bool)
    (ds : List HttpgdServerConfig)
    (hok : httpgd_ check allocOk str2col get_wwwpath fs host port bg width
        height pointsize aliases recording cors token devices =
      (Except.ok b, ds)) :
    b = true ∧
      ∃ cfg, ds = devices ++ [cfg] ∧ cfg.token = token ∧
        (cfg.use_token = true ↔ token ≠ "") := by
  simp only [httpgd_, makehttpgdDevice] at hok
  by_cases h1 : check host port = true
  · simp [h1] at hok
  · simp only [Bool.not_eq_true] at h1
    cases allocOk with
    | false => simp [h1] at hok
    | true =>
      simp only [h1, Bool.false_eq_true, if_false, if_neg, Bool.true_eq_false,
        Prod.mk.injEq, Except.ok.injEq, reduceCtorEq, not_false_eq_true] at hok
      obtain ⟨hb, hds⟩ := hok
      refine ⟨hb.symm, ⟨_, hds.symm, rfl, ?_⟩⟩
      simpa [bne_iff_ne] using string_length_ne_zero_iff token

/-- Witness for C7: starting with token `"abc123"` registers a
configuration with token auth enabled and returns `true`. -/
theorem start_token_auth_iff_nonempty_witness :
    true = true ∧
      ∃ cfg, [(⟨"127.0.0.1", 8080, "<html/>", false, true, "abc123",
          true⟩ : HttpgdServerConfig)] = [] ++ [cfg] ∧
        cfg.token = "abc123" ∧ (cfg.use_token = true ↔ "abc123" ≠ "") :=
  start_token_auth_iff_nonempty (fun _ _ => false) true (fun _ => 0) id
    (fun _ => "<html/>") "127.0.0.1" 8080 "white" 600 400 12 [] true false
    "abc123" [] true
    [⟨"127.0.0.1", 8080, "<html/>", false, true, "abc123", true⟩] (by rfl)

end Httpgd
